import Mathlib

/-
  Shallow embedding of the e-pharma payment microservice
  (src/models.py and src/payment_service/main.py).

  The persisted record set is a `List PaymentRecord` (the `payments` table).
  External effects (Stripe checkout-session creation, session retrieval,
  refund creation, webhook signature verification) are passed in as explicit
  parameters: an `Except` value for fallible single calls, a function for
  session retrieval.  Each HTTP handler becomes a pure function from the
  store and those inputs to an `Except ApiError` result carrying the new
  store; a raised `HTTPException` (no commit) becomes `.error` and leaves
  the store unchanged.

  Python truthiness of strings (`if payment.stripe_session_id:`,
  `if payment_id:`) is modelled explicitly: `none` and `some ""` are falsy.

  `amount` is a Python float in the source; no claim computes with it, so it
  is embedded as `Rat` to keep equality decidable.
-/

namespace EPharma

/-- models.py `PaymentStatus`. -/
inductive PaymentStatus where
  | PENDING
  | CONFIRMED
  | FAILED
  | REFUNDED
deriving DecidableEq, Repr

/-- models.py `PaymentModel` — one row of the `payments` table. -/
structure PaymentRecord where
  payment_id : String
  status : PaymentStatus
  amount : Rat
  currency : String
  order_id : String
  customer_id : Option String
  payment_method : String
  created_at : Nat
  metadata : Option (List (String × String))
  stripe_payment_intent_id : Option String
  stripe_session_id : Option String
deriving DecidableEq, Repr

/-- main.py `PaymentRequest` (request body of POST /api/v1/payments). -/
structure PaymentRequest where
  amount : Rat
  currency : String
  order_id : String
  payment_method : String
  customer_id : Option String
  metadata : Option (List (String × String))
  return_url : String
  cancel_url : String
deriving DecidableEq, Repr

/-- main.py `PaymentResponse`. -/
structure PaymentResponse where
  payment_id : String
  status : PaymentStatus
  amount : Rat
  currency : String
  created_at : Nat
  order_id : String
  checkout_url : Option String
deriving DecidableEq, Repr

/-- The Stripe checkout session object returned by
`stripe.checkout.Session.create` (the fields main.py reads: `.id`, `.url`). -/
structure CheckoutSession where
  id : String
  url : String
deriving DecidableEq, Repr

/-- The Stripe session object returned by `stripe.checkout.Session.retrieve`
in `get_payment` (the fields read there: `.payment_status`, `.status`). -/
structure SessionStatus where
  payment_status : String
  status : String
deriving DecidableEq, Repr

/-- A verified Stripe webhook event, as `stripe_webhook` reads it:
`event.type`, `event.data.object.metadata.get('payment_id')`,
`event.data.object.payment_intent`. -/
structure WebhookEvent where
  type : String
  metadata_payment_id : Option String
  payment_intent : Option String
deriving DecidableEq, Repr

/-- The error outcomes of the four handlers (each a raised `HTTPException`),
tagged per the spec's §7 taxonomy. -/
inductive ApiError where
  /-- HTTP 404 "Payment not found". -/
  | notFound
  /-- HTTP 400 "Payment cannot be refunded" (refund precondition failed). -/
  | invalidStateTransition
  /-- HTTP 400 from a caught `stripe.error.StripeError`. -/
  | processorError (detail : String)
  /-- HTTP 400 "Refund failed" (processor-reported non-succeeded refund). -/
  | refundFailed
  /-- HTTP 400 from `stripe.Webhook.construct_event` raising
  `ValueError`/`SignatureVerificationError`. -/
  | invalidSignature (detail : String)
deriving DecidableEq, Repr

/-- Python truthiness of an optional string: `None` and `""` are falsy. -/
def strTruthy : Option String → Bool
  | none => false
  | some s => s != ""

/-- Embeds `db.query(PaymentModel).filter(PaymentModel.payment_id == pid).first()`. -/
def findPayment (store : List PaymentRecord) (pid : String) : Option PaymentRecord :=
  store.find? (fun p => p.payment_id == pid)

/-- Committing a mutated ORM row: replace the record(s) with this
`payment_id` by the updated one. -/
def updateRecord (store : List PaymentRecord) (pid : String)
    (upd : PaymentRecord) : List PaymentRecord :=
  store.map (fun p => if p.payment_id == pid then upd else p)

/-- The row `create_payment` inserts (`PaymentModel(...)` at main.py:118). -/
def mkPaymentRecord (req : PaymentRequest) (pid : String) (now : Nat)
    (cs : CheckoutSession) : PaymentRecord :=
  { payment_id := pid
    status := PaymentStatus.PENDING
    amount := req.amount
    currency := req.currency
    order_id := req.order_id
    customer_id := req.customer_id
    payment_method := req.payment_method
    created_at := now
    metadata := req.metadata
    stripe_payment_intent_id := none
    stripe_session_id := some cs.id }

/-- main.py `create_payment` (POST /api/v1/payments).  `pid` is the generated
uuid, `now` the creation timestamp, `sessionResult` the outcome of
`stripe.checkout.Session.create` (a `StripeError` is caught and re-raised as
HTTP 400, with nothing persisted; on success the new Pending row is added and
committed before the response is built). -/
def create_payment (store : List PaymentRecord) (req : PaymentRequest)
    (pid : String) (now : Nat)
    (sessionResult : Except String CheckoutSession) :
    Except ApiError (List PaymentRecord × PaymentResponse) :=
  match sessionResult with
  | .error e => .error (.processorError e)
  | .ok cs =>
      let row := mkPaymentRecord req pid now cs
      .ok (store ++ [row],
        { payment_id := pid
          status := PaymentStatus.PENDING
          amount := req.amount
          currency := req.currency
          created_at := now
          order_id := req.order_id
          checkout_url := some cs.url })

/-- The mutation `get_payment` performs on a paid session (main.py:161). -/
def pollConfirm (payment : PaymentRecord) : PaymentRecord :=
  { payment with status := PaymentStatus.CONFIRMED }

/-- The mutation `get_payment` performs on an expired session (main.py:164). -/
def pollFail (payment : PaymentRecord) : PaymentRecord :=
  { payment with status := PaymentStatus.FAILED }

/-- The mutation `refund_payment` performs on a succeeded refund
(main.py:187). -/
def refundApply (payment : PaymentRecord) : PaymentRecord :=
  { payment with status := PaymentStatus.REFUNDED }

/-- The mutation `stripe_webhook` performs on a found record
(main.py:216-217): status unconditionally `CONFIRMED`, charge reference from
the event. -/
def webhookConfirm (payment : PaymentRecord) (intent : Option String) :
    PaymentRecord :=
  { payment with
    status := PaymentStatus.CONFIRMED
    stripe_payment_intent_id := intent }

/-- main.py `get_payment` (GET /api/v1/payments/\x7bpayment_id\x7d).
`retrieve` is `stripe.checkout.Session.retrieve`.  Result carries the new
store, the returned record, and whether the processor was polled. -/
def get_payment (store : List PaymentRecord) (pid : String)
    (retrieve : String → SessionStatus) :
    Except ApiError (List PaymentRecord × PaymentRecord × Bool) :=
  match findPayment store pid with
  | none => .error .notFound
  | some payment =>
      match payment.stripe_session_id with
      | some sid =>
          if sid != "" then
            let s := retrieve sid
            if s.payment_status == "paid" && !(payment.status == PaymentStatus.CONFIRMED) then
              .ok (updateRecord store pid (pollConfirm payment), pollConfirm payment, true)
            else if s.status == "expired" && payment.status == PaymentStatus.PENDING then
              .ok (updateRecord store pid (pollFail payment), pollFail payment, true)
            else
              .ok (store, payment, true)
          else
            .ok (store, payment, false)
      | none => .ok (store, payment, false)

/-- main.py `refund_payment` (POST /api/v1/payments/\x7bpayment_id\x7d/refund).
`processorRefund` bundles the two external calls inside the `try` block
(`Session.retrieve` then `Refund.create`): `.error` is a caught
`StripeError` from either, `.ok st` is `refund.status`. -/
def refund_payment (store : List PaymentRecord) (pid : String)
    (processorRefund : Except String String) :
    Except ApiError (List PaymentRecord × String) :=
  match findPayment store pid with
  | none => .error .notFound
  | some payment =>
      if payment.status != PaymentStatus.CONFIRMED then
        .error .invalidStateTransition
      else
        match processorRefund with
        | .error e => .error (.processorError e)
        | .ok st =>
            if st == "succeeded" then
              .ok (updateRecord store pid (refundApply payment),
                   "Payment refunded successfully")
            else
              .error .refundFailed

/-- main.py `stripe_webhook` (POST /api/v1/webhooks/stripe).  `verify` is the
outcome of `stripe.Webhook.construct_event`: `.error` when signature
verification (or payload parsing) fails, `.ok event` otherwise. -/
def stripe_webhook (store : List PaymentRecord)
    (verify : Except String WebhookEvent) :
    Except ApiError (List PaymentRecord × String) :=
  match verify with
  | .error e => .error (.invalidSignature e)
  | .ok event =>
      if event.type == "checkout.session.completed" then
        match event.metadata_payment_id with
        | some pid =>
            if pid != "" then
              match findPayment store pid with
              | some payment =>
                  .ok (updateRecord store pid
                         (webhookConfirm payment event.payment_intent), "success")
              | none => .ok (store, "success")
            else .ok (store, "success")
        | none => .ok (store, "success")
      else .ok (store, "success")

/-- One client-visible operation against the service, together with the
external-world inputs that determine its effect. -/
inductive Op where
  | create (req : PaymentRequest) (pid : String) (now : Nat)
      (sessionResult : Except String CheckoutSession)
  | get (pid : String) (retrieve : String → SessionStatus)
  | refund (pid : String) (processorRefund : Except String String)
  | webhook (verify : Except String WebhookEvent)

/-- Effect of one operation on the store; a raised `HTTPException`
(`.error`) commits nothing. -/
def applyOp (store : List PaymentRecord) : Op → List PaymentRecord
  | .create req pid now sr =>
      match create_payment store req pid now sr with
      | .ok (s, _) => s
      | .error _ => store
  | .get pid r =>
      match get_payment store pid r with
      | .ok (s, _, _) => s
      | .error _ => store
  | .refund pid pr =>
      match refund_payment store pid pr with
      | .ok (s, _) => s
      | .error _ => store
  | .webhook v =>
      match stripe_webhook store v with
      | .ok (s, _) => s
      | .error _ => store

/-- The store after a sequence of operations starting from `store`. -/
def runOps (store : List PaymentRecord) (ops : List Op) : List PaymentRecord :=
  ops.foldl applyOp store

/-- Per-record part of the charge-reference invariant that actually holds:
a record still `PENDING` or `FAILED` has no `stripe_payment_intent_id`. -/
def pendingFailedNoRef (p : PaymentRecord) : Prop :=
  (p.status = PaymentStatus.PENDING ∨ p.status = PaymentStatus.FAILED) →
    p.stripe_payment_intent_id = none

/-- Store-wide form of `pendingFailedNoRef`. -/
def storeInv (store : List PaymentRecord) : Prop :=
  ∀ p ∈ store, pendingFailedNoRef p

/- Concrete fixtures used by witnesses and counterexamples. -/

/-- A concrete valid creation request (the spec's §8 scenario). -/
def req0 : PaymentRequest :=
  { amount := 10, currency := "usd", order_id := "o1", payment_method := "card",
    customer_id := none, metadata := none, return_url := "r", cancel_url := "c" }

/-- A correctly signed "checkout.session.completed" event for payment `p1`. -/
def ev0 : WebhookEvent :=
  { type := "checkout.session.completed", metadata_payment_id := some "p1",
    payment_intent := some "pi_1" }

/-- A session-retrieval stub reporting every session as paid. -/
def paidRetrieve : String → SessionStatus := fun _ => ⟨"paid", "complete"⟩

/-- A concrete `PENDING` record with a checkout-session reference. -/
def pendingRec : PaymentRecord :=
  { payment_id := "p1", status := PaymentStatus.PENDING, amount := 10,
    currency := "usd", order_id := "o1", customer_id := none,
    payment_method := "card", created_at := 0, metadata := none,
    stripe_payment_intent_id := none, stripe_session_id := some "s1" }

/-- A concrete `FAILED` record with a checkout-session reference. -/
def failedRec : PaymentRecord :=
  { pendingRec with status := PaymentStatus.FAILED }

/-- The record `p1` after webhook confirmation of `pendingRec`. -/
def confirmedRec : PaymentRecord :=
  { pendingRec with
    status := PaymentStatus.CONFIRMED
    stripe_payment_intent_id := some "pi_1" }

/- Helper lemmas about the store operations. -/

theorem payment_id_of_findPayment {store : List PaymentRecord} {pid : String}
    {q : PaymentRecord} (h : findPayment store pid = some q) :
    q.payment_id = pid := by
  have := List.find?_some h
  simpa using this

theorem mem_of_findPayment {store : List PaymentRecord} {pid : String}
    {q : PaymentRecord} (h : findPayment store pid = some q) : q ∈ store :=
  List.mem_of_find?_eq_some h

theorem findPayment_updateRecord {store : List PaymentRecord} {pid : String}
    {q : PaymentRecord} (upd : PaymentRecord)
    (h : findPayment store pid = some q) (hupd : upd.payment_id = pid) :
    findPayment (updateRecord store pid upd) pid = some upd := by
  have hq : q.payment_id = pid := payment_id_of_findPayment h
  unfold findPayment updateRecord at *
  rw [List.find?_map]
  have hfun : ((fun p : PaymentRecord => p.payment_id == pid) ∘
      fun p => if p.payment_id == pid then upd else p) =
      fun p : PaymentRecord => p.payment_id == pid := by
    funext x
    by_cases hx : x.payment_id = pid
    · simp [hx, hupd]
    · simp [hx]
  rw [hfun, h]
  simp [hq]

theorem updateRecord_updateRecord (store : List PaymentRecord) (pid : String)
    (upd : PaymentRecord) (hupd : upd.payment_id = pid) :
    updateRecord (updateRecord store pid upd) pid upd =
      updateRecord store pid upd := by
  unfold updateRecord
  rw [List.map_map]
  have hfun : ((fun p : PaymentRecord => if p.payment_id == pid then upd else p) ∘
      fun p => if p.payment_id == pid then upd else p) =
      fun p : PaymentRecord => if p.payment_id == pid then upd else p := by
    funext x
    by_cases hx : x.payment_id = pid
    · simp [hx, hupd]
    · simp [hx]
  rw [hfun]

theorem mem_updateRecord {p : PaymentRecord} {store : List PaymentRecord}
    {pid : String} {upd : PaymentRecord}
    (hp : p ∈ updateRecord store pid upd) : p = upd ∨ p ∈ store := by
  unfold updateRecord at hp
  obtain ⟨q, hq, hmap⟩ := List.mem_map.mp hp
  by_cases hx : q.payment_id = pid
  · left; rw [← hmap]; simp [hx]
  · right; rw [← hmap]; simpa [hx] using hq

theorem length_updateRecord (store : List PaymentRecord) (pid : String)
    (upd : PaymentRecord) : (updateRecord store pid upd).length = store.length :=
  List.length_map store _

theorem webhookConfirm_payment_id (payment : PaymentRecord)
    (intent : Option String) :
    (webhookConfirm payment intent).payment_id = payment.payment_id := rfl

theorem pollConfirm_payment_id (payment : PaymentRecord) :
    (pollConfirm payment).payment_id = payment.payment_id := rfl

/-- Re-applying the webhook mutation with the same event data is the
identity on the already-mutated record. -/
theorem webhookConfirm_idem (payment : PaymentRecord) (intent : Option String) :
    webhookConfirm (webhookConfirm payment intent) intent =
      webhookConfirm payment intent := rfl

/-- Running `stripe_webhook` on a correctly signed completed-session event whose
`payment_id` matches a stored record commits the webhook mutation. -/
theorem stripe_webhook_found (store : List PaymentRecord) (pid : String)
    (payment : PaymentRecord) (ev : WebhookEvent)
    (hty : ev.type = "checkout.session.completed")
    (hmeta : ev.metadata_payment_id = some pid) (hpid0 : pid ≠ "")
    (hfind : findPayment store pid = some payment) :
    stripe_webhook store (.ok ev) =
      .ok (updateRecord store pid (webhookConfirm payment ev.payment_intent),
           "success") := by
  simp [stripe_webhook, hty, hmeta, hpid0, hfind]

/-- Running `get_payment` on a found record with a session reference whose session
reports paid, the record not yet `CONFIRMED`: commits the poll-confirm
mutation. -/
theorem get_payment_paid (store : List PaymentRecord) (pid : String)
    (payment : PaymentRecord) (retrieve : String → SessionStatus) (sid : String)
    (hfind : findPayment store pid = some payment)
    (hsid : payment.stripe_session_id = some sid) (hsid0 : sid ≠ "")
    (hpaid : (retrieve sid).payment_status = "paid")
    (hnc : payment.status ≠ PaymentStatus.CONFIRMED) :
    get_payment store pid retrieve =
      .ok (updateRecord store pid (pollConfirm payment), pollConfirm payment,
           true) := by
  simp [get_payment, hfind, hsid, hsid0, hpaid, hnc]

/-- Running `get_payment` on an already-`CONFIRMED` record whose session reports
paid: polls but changes nothing. -/
theorem get_payment_paid_already (store : List PaymentRecord) (pid : String)
    (payment : PaymentRecord) (retrieve : String → SessionStatus) (sid : String)
    (hfind : findPayment store pid = some payment)
    (hsid : payment.stripe_session_id = some sid) (hsid0 : sid ≠ "")
    (hpaid : (retrieve sid).payment_status = "paid")
    (hc : payment.status = PaymentStatus.CONFIRMED) :
    get_payment store pid retrieve = .ok (store, payment, true) := by
  simp [get_payment, hfind, hsid, hsid0, hpaid, hc]

/-- C1: the status state machine is NOT respected by the code: after
create → webhook-confirm → successful refund, the sole record is `REFUNDED`;
re-delivering the very same "checkout.session.completed" webhook then sets it
back to `CONFIRMED`, a transition out of the terminal state `Refunded`
(main.py:216 assigns `CONFIRMED` without checking the prior status). -/
theorem c1_terminal_state_revert :
    (runOps [] [Op.create req0 "p1" 0 (.ok ⟨"s1", "u"⟩),
                Op.webhook (.ok ev0),
                Op.refund "p1" (.ok "succeeded")]).map (fun p => p.status) =
      [PaymentStatus.REFUNDED] ∧
    (runOps [] [Op.create req0 "p1" 0 (.ok ⟨"s1", "u"⟩),
                Op.webhook (.ok ev0),
                Op.refund "p1" (.ok "succeeded"),
                Op.webhook (.ok ev0)]).map (fun p => p.status) =
      [PaymentStatus.CONFIRMED] := by
  exact ⟨by decide, by decide⟩

/-- C3: for a valid creation input, if the processor accepts the
checkout-session request then `create_payment` appends exactly one new record
with status `PENDING` carrying the returned session reference (and returns the
matching response); if the processor call fails, the operation is rejected as
a processor error and the store is unchanged. -/
theorem c3_create_payment_spec (store : List PaymentRecord)
    (req : PaymentRequest) (pid : String) (now : Nat)
    (hamt : 0 < req.amount) (hcur : req.currency ≠ "") (hord : req.order_id ≠ "") :
    (∀ cs : CheckoutSession,
        create_payment store req pid now (.ok cs) =
          .ok (store ++ [mkPaymentRecord req pid now cs],
            { payment_id := pid
              status := PaymentStatus.PENDING
              amount := req.amount
              currency := req.currency
              created_at := now
              order_id := req.order_id
              checkout_url := some cs.url }) ∧
        (mkPaymentRecord req pid now cs).status = PaymentStatus.PENDING ∧
        (mkPaymentRecord req pid now cs).stripe_session_id = some cs.id) ∧
    (∀ e : String,
        create_payment store req pid now (.error e) = .error (.processorError e) ∧
        applyOp store (.create req pid now (.error e)) = store) :=
  ⟨fun _ => ⟨rfl, rfl, rfl⟩, fun _ => ⟨rfl, rfl⟩⟩

/-- Witness for C3 at a concrete valid input. -/
theorem c3_create_payment_spec_witness :
    create_payment [] req0 "p1" 0 (.ok ⟨"s1", "u"⟩) =
      .ok ([mkPaymentRecord req0 "p1" 0 ⟨"s1", "u"⟩],
        { payment_id := "p1"
          status := PaymentStatus.PENDING
          amount := req0.amount
          currency := req0.currency
          created_at := 0
          order_id := req0.order_id
          checkout_url := some "u" }) ∧
    (mkPaymentRecord req0 "p1" 0 ⟨"s1", "u"⟩).status = PaymentStatus.PENDING ∧
    (mkPaymentRecord req0 "p1" 0 ⟨"s1", "u"⟩).stripe_session_id = some "s1" :=
  (c3_create_payment_spec [] req0 "p1" 0 (by decide) (by decide) (by decide)).1
    ⟨"s1", "u"⟩

/-- C7: a webhook whose signature verification fails is rejected as
`invalidSignature` and the store is untouched. -/
theorem c7_invalid_signature (store : List PaymentRecord) (e : String) :
    stripe_webhook store (.error e) = .error (.invalidSignature e) ∧
    applyOp store (.webhook (.error e)) = store :=
  ⟨rfl, rfl⟩

/-- C8: a correctly signed "checkout.session.completed" event whose metadata
lacks a `payment_id`, or whose `payment_id` matches no record, is acknowledged
with success and modifies no record. -/
theorem c8_unknown_payment_ignored (store : List PaymentRecord)
    (ev : WebhookEvent) (hty : ev.type = "checkout.session.completed") :
    (ev.metadata_payment_id = none →
        stripe_webhook store (.ok ev) = .ok (store, "success") ∧
        applyOp store (.webhook (.ok ev)) = store) ∧
    (∀ pid, ev.metadata_payment_id = some pid → findPayment store pid = none →
        stripe_webhook store (.ok ev) = .ok (store, "success") ∧
        applyOp store (.webhook (.ok ev)) = store) := by
  constructor
  · intro hm
    have h1 : stripe_webhook store (.ok ev) = .ok (store, "success") := by
      simp [stripe_webhook, hty, hm]
    exact ⟨h1, by simp [applyOp, h1]⟩
  · intro pid hm hf
    have h1 : stripe_webhook store (.ok ev) = .ok (store, "success") := by
      by_cases hp : pid = ""
      · simp [stripe_webhook, hty, hm, hp]
      · simp [stripe_webhook, hty, hm, hp, hf]
    exact ⟨h1, by simp [applyOp, h1]⟩

/-- Witness for C8: a signed completed-session event for unknown `p2`. -/
theorem c8_unknown_payment_ignored_witness :
    stripe_webhook [pendingRec]
        (.ok ⟨"checkout.session.completed", some "p2", some "pi_9"⟩) =
      .ok ([pendingRec], "success") ∧
    applyOp [pendingRec]
        (.webhook (.ok ⟨"checkout.session.completed", some "p2", some "pi_9"⟩)) =
      [pendingRec] :=
  (c8_unknown_payment_ignored [pendingRec]
      ⟨"checkout.session.completed", some "p2", some "pi_9"⟩ rfl).2 "p2" rfl
    (by decide)

/-- C10: a correctly signed event of any other type modifies no record and
still returns success. -/
theorem c10_other_event_type_noop (store : List PaymentRecord)
    (ev : WebhookEvent) (hty : ev.type ≠ "checkout.session.completed") :
    stripe_webhook store (.ok ev) = .ok (store, "success") ∧
    applyOp store (.webhook (.ok ev)) = store := by
  have h1 : stripe_webhook store (.ok ev) = .ok (store, "success") := by
    simp [stripe_webhook, hty]
  exact ⟨h1, by simp [applyOp, h1]⟩

/-- Witness for C10 at a concrete "payment_intent.succeeded" event. -/
theorem c10_other_event_type_noop_witness :
    stripe_webhook [pendingRec]
        (.ok ⟨"payment_intent.succeeded", some "p1", some "pi_1"⟩) =
      .ok ([pendingRec], "success") ∧
    applyOp [pendingRec]
        (.webhook (.ok ⟨"payment_intent.succeeded", some "p1", some "pi_1"⟩)) =
      [pendingRec] :=
  c10_other_event_type_noop [pendingRec]
    ⟨"payment_intent.succeeded", some "p1", some "pi_1"⟩ (by decide)

/-- C4: refunding a stored record whose status is not `CONFIRMED` rejects
with `invalidStateTransition` and leaves the store unchanged; for a
`CONFIRMED` record, a processor-reported non-succeeded refund rejects with
`refundFailed` (and a processor error rejects as a processor error), in both
cases leaving the record `CONFIRMED` and the store unchanged. -/
theorem c4_refund_guard (store : List PaymentRecord) (pid : String)
    (payment : PaymentRecord) (hfind : findPayment store pid = some payment) :
    (payment.status ≠ PaymentStatus.CONFIRMED →
        ∀ pr, refund_payment store pid pr = .error .invalidStateTransition ∧
          applyOp store (.refund pid pr) = store) ∧
    (payment.status = PaymentStatus.CONFIRMED →
        (∀ st, st ≠ "succeeded" →
            refund_payment store pid (.ok st) = .error .refundFailed ∧
            applyOp store (.refund pid (.ok st)) = store) ∧
        (∀ e, refund_payment store pid (.error e) = .error (.processorError e) ∧
            applyOp store (.refund pid (.error e)) = store)) := by
  constructor
  · intro hne pr
    have h1 : refund_payment store pid pr = .error .invalidStateTransition := by
      simp [refund_payment, hfind, hne]
    exact ⟨h1, by simp [applyOp, h1]⟩
  · intro heq
    constructor
    · intro st hst
      have h1 : refund_payment store pid (.ok st) = .error .refundFailed := by
        simp [refund_payment, hfind, heq, hst]
      exact ⟨h1, by simp [applyOp, h1]⟩
    · intro e
      have h1 : refund_payment store pid (.error e) =
          .error (.processorError e) := by
        simp [refund_payment, hfind, heq]
      exact ⟨h1, by simp [applyOp, h1]⟩

/-- Witness for C4: refunding the concrete `PENDING` record rejects and
changes nothing. -/
theorem c4_refund_guard_witness :
    refund_payment [pendingRec] "p1" (.ok "succeeded") =
      .error .invalidStateTransition ∧
    applyOp [pendingRec] (.refund "p1" (.ok "succeeded")) = [pendingRec] :=
  (c4_refund_guard [pendingRec] "p1" pendingRec (by decide)).1 (by decide)
    (.ok "succeeded")

/-- C2: applying the same "session paid" event twice for the same
`payment_id` is idempotent.  Webhook path: the first delivery commits the
confirm mutation; a second delivery of the identical event returns success
and leaves the store exactly as it was after the first (the record still
`CONFIRMED`, no record added).  Poll path: the first `get_payment` with a
paid session report confirms the `PENDING` record; a second identical call
returns success with the same store and the record still `CONFIRMED`. -/
theorem c2_paid_event_idempotent (store : List PaymentRecord) (pid : String)
    (payment : PaymentRecord) (ev : WebhookEvent)
    (retrieve : String → SessionStatus) (sid : String)
    (hfind : findPayment store pid = some payment)
    (hst : payment.status = PaymentStatus.PENDING)
    (hty : ev.type = "checkout.session.completed")
    (hmeta : ev.metadata_payment_id = some pid) (hpid0 : pid ≠ "")
    (hsid : payment.stripe_session_id = some sid) (hsid0 : sid ≠ "")
    (hpaid : (retrieve sid).payment_status = "paid") :
    (stripe_webhook store (.ok ev) =
        .ok (updateRecord store pid (webhookConfirm payment ev.payment_intent),
             "success") ∧
      (webhookConfirm payment ev.payment_intent).status =
        PaymentStatus.CONFIRMED ∧
      (updateRecord store pid (webhookConfirm payment ev.payment_intent)).length =
        store.length ∧
      stripe_webhook
          (updateRecord store pid (webhookConfirm payment ev.payment_intent))
          (.ok ev) =
        .ok (updateRecord store pid (webhookConfirm payment ev.payment_intent),
             "success")) ∧
    (get_payment store pid retrieve =
        .ok (updateRecord store pid (pollConfirm payment), pollConfirm payment,
             true) ∧
      (pollConfirm payment).status = PaymentStatus.CONFIRMED ∧
      get_payment (updateRecord store pid (pollConfirm payment)) pid retrieve =
        .ok (updateRecord store pid (pollConfirm payment), pollConfirm payment,
             true)) := by
  have hpayid : payment.payment_id = pid := payment_id_of_findPayment hfind
  constructor
  · have h1 := stripe_webhook_found store pid payment ev hty hmeta hpid0 hfind
    have hupdid : (webhookConfirm payment ev.payment_intent).payment_id = pid := by
      rw [webhookConfirm_payment_id, hpayid]
    have hfind2 : findPayment
        (updateRecord store pid (webhookConfirm payment ev.payment_intent)) pid =
        some (webhookConfirm payment ev.payment_intent) :=
      findPayment_updateRecord _ hfind hupdid
    have h2 := stripe_webhook_found
      (updateRecord store pid (webhookConfirm payment ev.payment_intent)) pid
      (webhookConfirm payment ev.payment_intent) ev hty hmeta hpid0 hfind2
    rw [webhookConfirm_idem, updateRecord_updateRecord store pid _ hupdid] at h2
    exact ⟨h1, rfl, length_updateRecord store pid _, h2⟩
  · have hnc : payment.status ≠ PaymentStatus.CONFIRMED := by
      rw [hst]; intro hcontra; cases hcontra
    have hg1 := get_payment_paid store pid payment retrieve sid hfind hsid hsid0
      hpaid hnc
    have hgid : (pollConfirm payment).payment_id = pid := by
      rw [pollConfirm_payment_id, hpayid]
    have hgfind2 : findPayment (updateRecord store pid (pollConfirm payment))
        pid = some (pollConfirm payment) :=
      findPayment_updateRecord _ hfind hgid
    have hg2 := get_payment_paid_already
      (updateRecord store pid (pollConfirm payment)) pid (pollConfirm payment)
      retrieve sid hgfind2 hsid hsid0 hpaid rfl
    exact ⟨hg1, rfl, hg2⟩

/-- Witness for C2 at the concrete `PENDING` record and the spec's §8
scenario event. -/
theorem c2_paid_event_idempotent_witness :
    (stripe_webhook [pendingRec] (.ok ev0) =
        .ok (updateRecord [pendingRec] "p1"
               (webhookConfirm pendingRec ev0.payment_intent), "success") ∧
      (webhookConfirm pendingRec ev0.payment_intent).status =
        PaymentStatus.CONFIRMED ∧
      (updateRecord [pendingRec] "p1"
          (webhookConfirm pendingRec ev0.payment_intent)).length =
        List.length [pendingRec] ∧
      stripe_webhook
          (updateRecord [pendingRec] "p1"
            (webhookConfirm pendingRec ev0.payment_intent)) (.ok ev0) =
        .ok (updateRecord [pendingRec] "p1"
               (webhookConfirm pendingRec ev0.payment_intent), "success")) ∧
    (get_payment [pendingRec] "p1" paidRetrieve =
        .ok (updateRecord [pendingRec] "p1" (pollConfirm pendingRec),
             pollConfirm pendingRec, true) ∧
      (pollConfirm pendingRec).status = PaymentStatus.CONFIRMED ∧
      get_payment (updateRecord [pendingRec] "p1" (pollConfirm pendingRec))
          "p1" paidRetrieve =
        .ok (updateRecord [pendingRec] "p1" (pollConfirm pendingRec),
             pollConfirm pendingRec, true)) :=
  c2_paid_event_idempotent [pendingRec] "p1" pendingRec ev0 paidRetrieve "s1"
    (by decide) (by decide) (by decide) (by decide) (by decide) (by decide)
    (by decide) (by decide)

/-- C5 counterexample: a stored `FAILED` record (not `Pending`) whose
session reports paid is NOT returned unchanged — `get_payment` moves it to
`CONFIRMED`, refuting "records not in Pending are returned without any
status change" (and the poll is keyed on the session reference, not on
`Pending`). -/
theorem c5_counterexample :
    failedRec.status = PaymentStatus.FAILED ∧
    get_payment [failedRec] "p1" paidRetrieve =
      .ok ([pollConfirm failedRec], pollConfirm failedRec, true) ∧
    (pollConfirm failedRec).status = PaymentStatus.CONFIRMED := by
  exact ⟨by decide, by rfl, by decide⟩

/-- C5 amended: `get_payment` signals `notFound` on a miss; it polls the
processor exactly when the found record's `stripe_session_id` is present and
non-empty (whatever the status); on a paid report it moves any
not-yet-`CONFIRMED` record (including `FAILED`/`REFUNDED`) to `CONFIRMED`,
on an expired report it moves a `PENDING` record to `FAILED`, and otherwise
returns the record with no change. -/
theorem c5_get_sync_amended (store : List PaymentRecord) (pid : String)
    (retrieve : String → SessionStatus) :
    (findPayment store pid = none →
        get_payment store pid retrieve = .error .notFound) ∧
    (∀ payment, findPayment store pid = some payment →
      (strTruthy payment.stripe_session_id = false →
          get_payment store pid retrieve = .ok (store, payment, false)) ∧
      (∀ sid, payment.stripe_session_id = some sid → sid ≠ "" →
        ((retrieve sid).payment_status = "paid" →
            payment.status ≠ PaymentStatus.CONFIRMED →
            get_payment store pid retrieve =
              .ok (updateRecord store pid (pollConfirm payment),
                   pollConfirm payment, true)) ∧
        (((retrieve sid).payment_status = "paid" →
              payment.status = PaymentStatus.CONFIRMED) →
            (retrieve sid).status = "expired" →
            payment.status = PaymentStatus.PENDING →
            get_payment store pid retrieve =
              .ok (updateRecord store pid (pollFail payment), pollFail payment,
                   true)) ∧
        (((retrieve sid).payment_status = "paid" →
              payment.status = PaymentStatus.CONFIRMED) →
            ¬((retrieve sid).status = "expired" ∧
                payment.status = PaymentStatus.PENDING) →
            get_payment store pid retrieve = .ok (store, payment, true)))) := by
  constructor
  · intro hmiss
    simp [get_payment, hmiss]
  · intro payment hfind
    constructor
    · intro hfalsy
      cases hO : payment.stripe_session_id with
      | none => simp [get_payment, hfind, hO]
      | some s =>
          rw [hO] at hfalsy
          simp only [strTruthy, bne_eq_false_iff_eq] at hfalsy
          simp [get_payment, hfind, hO, hfalsy]
    · intro sid hsid hsid0
      refine ⟨fun hpaid hnc =>
        get_payment_paid store pid payment retrieve sid hfind hsid hsid0 hpaid
          hnc, fun hnp hexp hpend => ?_, fun hnp hnot2 => ?_⟩
      · have hpaidF : (retrieve sid).payment_status ≠ "paid" := by
          intro hp
          rw [hnp hp] at hpend
          cases hpend
        simp [get_payment, hfind, hsid, hsid0, hpaidF, hexp, hpend]
      · by_cases hpaid : (retrieve sid).payment_status = "paid"
        · exact get_payment_paid_already store pid payment retrieve sid hfind
            hsid hsid0 hpaid (hnp hpaid)
        · by_cases hexp : (retrieve sid).status = "expired"
          · have hnpend : payment.status ≠ PaymentStatus.PENDING :=
              fun hpd => hnot2 ⟨hexp, hpd⟩
            simp [get_payment, hfind, hsid, hsid0, hpaid, hexp, hnpend]
          · simp [get_payment, hfind, hsid, hsid0, hpaid, hexp]

/-- Witness for C5 at the concrete `PENDING` record with a paid session. -/
theorem c5_get_sync_amended_witness :
    get_payment [pendingRec] "p1" paidRetrieve =
      .ok (updateRecord [pendingRec] "p1" (pollConfirm pendingRec),
           pollConfirm pendingRec, true) :=
  (((c5_get_sync_amended [pendingRec] "p1" paidRetrieve).2 pendingRec
      (by decide)).2 "s1" (by decide) (by decide)).1 (by decide) (by decide)

/-- C6 counterexample: create a payment, then confirm it through the
`get_payment` poll (paid session): the reachable record is `CONFIRMED` with
`stripe_payment_intent_id = none` — the poll-confirmation path records no
charge reference, refuting the "if and only if" claim. -/
theorem c6_counterexample :
    (runOps [] [Op.create req0 "p1" 0 (.ok ⟨"s1", "u"⟩),
                Op.get "p1" paidRetrieve]).map
        (fun p => (p.status, p.stripe_payment_intent_id)) =
      [(PaymentStatus.CONFIRMED, none)] := by
  decide

/-- Every store `get_payment` can commit: unchanged, a poll-confirm of a
found record, or a poll-fail of a found `PENDING` record. -/
theorem get_payment_store_cases (store : List PaymentRecord) (pid : String)
    (retrieve : String → SessionStatus) (s : List PaymentRecord)
    (q : PaymentRecord) (b : Bool)
    (h : get_payment store pid retrieve = .ok (s, q, b)) :
    s = store ∨
    (∃ payment, findPayment store pid = some payment ∧
      (s = updateRecord store pid (pollConfirm payment) ∨
        (s = updateRecord store pid (pollFail payment) ∧
          payment.status = PaymentStatus.PENDING))) := by
  unfold get_payment at h
  split at h
  · cases h
  · rename_i payment hfind
    split at h
    · split at h
      · dsimp only at h
        split at h
        · cases h
          exact Or.inr ⟨payment, hfind, Or.inl rfl⟩
        · split at h
          · rename_i hexp
            cases h
            refine Or.inr ⟨payment, hfind, Or.inr ⟨rfl, ?_⟩⟩
            exact eq_of_beq ((Bool.and_eq_true _ _).mp hexp).2
          · cases h
            left; rfl
      · cases h
        left; rfl
    · cases h
      left; rfl

/-- Every store `refund_payment` can commit: the refund mutation of a found
record. -/
theorem refund_payment_store_cases (store : List PaymentRecord) (pid : String)
    (pr : Except String String) (s : List PaymentRecord) (m : String)
    (h : refund_payment store pid pr = .ok (s, m)) :
    ∃ payment, findPayment store pid = some payment ∧
      s = updateRecord store pid (refundApply payment) := by
  unfold refund_payment at h
  split at h
  · cases h
  · rename_i payment hfind
    split at h
    · cases h
    · split at h
      · cases h
      · split at h
        · cases h
          exact ⟨payment, hfind, rfl⟩
        · cases h

/-- Every store `stripe_webhook` can commit: unchanged, or the webhook
mutation of a found record. -/
theorem stripe_webhook_store_cases (store : List PaymentRecord)
    (verify : Except String WebhookEvent) (s : List PaymentRecord) (m : String)
    (h : stripe_webhook store verify = .ok (s, m)) :
    s = store ∨
    (∃ payment pid intent, findPayment store pid = some payment ∧
      s = updateRecord store pid (webhookConfirm payment intent)) := by
  unfold stripe_webhook at h
  split at h
  · cases h
  · rename_i event
    split at h
    · split at h
      · rename_i pid hmeta
        split at h
        · split at h
          · rename_i payment hfind
            cases h
            exact Or.inr ⟨payment, pid, event.payment_intent, hfind, rfl⟩
          · cases h
            left; rfl
        · cases h
          left; rfl
      · cases h
        left; rfl
    · cases h
      left; rfl

/-- The invariant `storeInv` (PENDING/FAILED records carry no charge
reference) is preserved by every operation. -/
theorem storeInv_applyOp (store : List PaymentRecord) (op : Op)
    (hinv : storeInv store) : storeInv (applyOp store op) := by
  cases op with
  | create req pid now sr =>
      cases sr with
      | error e => exact hinv
      | ok cs =>
          intro p hp
          rcases List.mem_append.mp hp with hin | hnew
          · exact hinv p hin
          · rw [List.mem_singleton.mp hnew]
            intro _
            rfl
  | get pid retrieve =>
      simp only [applyOp]
      cases hg : get_payment store pid retrieve with
      | error e => exact hinv
      | ok res =>
          obtain ⟨s, q, b⟩ := res
          show storeInv s
          rcases get_payment_store_cases store pid retrieve s q b hg with
            hs | ⟨payment, hfind, hs | ⟨hs, hpend⟩⟩
          · rw [hs]; exact hinv
          · rw [hs]
            intro p hp
            rcases mem_updateRecord hp with hpu | hin
            · rw [hpu]
              intro hPF
              rcases hPF with hP | hF
              · simp [pollConfirm] at hP
              · simp [pollConfirm] at hF
            · exact hinv p hin
          · rw [hs]
            intro p hp
            rcases mem_updateRecord hp with hpu | hin
            · rw [hpu]
              intro _
              exact hinv payment (mem_of_findPayment hfind) (Or.inl hpend)
            · exact hinv p hin
  | refund pid pr =>
      simp only [applyOp]
      cases hr : refund_payment store pid pr with
      | error e => exact hinv
      | ok res =>
          obtain ⟨s, m⟩ := res
          show storeInv s
          obtain ⟨payment, hfind, hs⟩ :=
            refund_payment_store_cases store pid pr s m hr
          rw [hs]
          intro p hp
          rcases mem_updateRecord hp with hpu | hin
          · rw [hpu]
            intro hPF
            rcases hPF with hP | hF
            · simp [refundApply] at hP
            · simp [refundApply] at hF
          · exact hinv p hin
  | webhook v =>
      simp only [applyOp]
      cases hw : stripe_webhook store v with
      | error e => exact hinv
      | ok res =>
          obtain ⟨s, m⟩ := res
          show storeInv s
          rcases stripe_webhook_store_cases store v s m hw with
            hs | ⟨payment, pid, intent, hfind, hs⟩
          · rw [hs]; exact hinv
          · rw [hs]
            intro p hp
            rcases mem_updateRecord hp with hpu | hin
            · rw [hpu]
              intro hPF
              rcases hPF with hP | hF
              · simp [webhookConfirm] at hP
              · simp [webhookConfirm] at hF
            · exact hinv p hin

/-- The invariant `storeInv` is preserved by any sequence of operations. -/
theorem storeInv_runOps (ops : List Op) :
    ∀ store, storeInv store → storeInv (runOps store ops) := by
  induction ops with
  | nil => intro store h; exact h
  | cons op rest ih => intro store h; exact ih _ (storeInv_applyOp store op h)

/-- C6 amended: in every store reachable from the empty store, a record with
`stripe_payment_intent_id` set has status `CONFIRMED` or `REFUNDED` (the
converse fails: the poll-confirmation path never records the charge
reference, see the counterexample). -/
theorem c6_charge_ref_amended (ops : List Op) (p : PaymentRecord)
    (hp : p ∈ runOps [] ops)
    (href : p.stripe_payment_intent_id ≠ none) :
    p.status = PaymentStatus.CONFIRMED ∨ p.status = PaymentStatus.REFUNDED := by
  have hinv : storeInv (runOps [] ops) :=
    storeInv_runOps ops [] (by intro q hq; cases hq)
  have hpf := hinv p hp
  cases hstatus : p.status with
  | PENDING => exact absurd (hpf (Or.inl hstatus)) href
  | FAILED => exact absurd (hpf (Or.inr hstatus)) href
  | CONFIRMED => exact Or.inl rfl
  | REFUNDED => exact Or.inr rfl

/-- Witness for C6 amended: the record confirmed by the §8-scenario webhook
carries a charge reference and is indeed `CONFIRMED`. -/
theorem c6_charge_ref_amended_witness :
    confirmedRec.status = PaymentStatus.CONFIRMED ∨
      confirmedRec.status = PaymentStatus.REFUNDED :=
  c6_charge_ref_amended
    [Op.create req0 "p1" 0 (.ok ⟨"s1", "u"⟩), Op.webhook (.ok ev0)]
    confirmedRec (by decide) (by decide)

end EPharma
